import Mathlib

/-!
Verification of the SkyCast weather client (React front end `src/App.jsx`,
serverless relay `api/weather.js`).

The development shallowly embeds the orchestration logic of the repository:

* the query normalizer (`query.trim().toLowerCase()` plus the single
  `banglore -> bangalore` alias rewrite);
* the per-request transport selection (`window.location.protocol === "https:"`
  chooses the same-origin `/api/weather` relay, otherwise the native
  `http://api.weatherstack.com/<endpoint>` URL);
* the response classification and single-shot tier-error retry inside
  `fetchWeather`, including the fact that the scheduled
  `setTimeout(() => fetchWeather(searchCity), 2000)` callback closes over the
  render-time values of `useHistorical`, `historicalDate`, `apiKey` and
  `recentSearches` (the `useCallback` closure), while the `setXxx` setters act
  on the live component state;
* the bounded most-recent-first search cache;
* the relay handler of `api/weather.js`.

Machine strings are embedded as Lean `String`; JavaScript `trim` and
`toLowerCase` are embedded as explicit `List Char` operations. Network
outcomes (the resolution or rejection of the `axios.get` promise) are passed
to the embedded step functions as explicit arguments.
-/

/-! ## JavaScript string primitives -/

/-- Whitespace as recognised by JavaScript `String.prototype.trim`
(code points compared numerically). -/
def isJsWs (c : Char) : Bool :=
  c.toNat == 9 || c.toNat == 10 || c.toNat == 11 || c.toNat == 12 || c.toNat == 13 ||
    c.toNat == 32 || c.toNat == 160 || c.toNat == 8232 || c.toNat == 8233 || c.toNat == 65279

/-- Remove leading and trailing whitespace from a character list. -/
def trimList (l : List Char) : List Char :=
  List.rdropWhile isJsWs (List.dropWhile isJsWs l)

/-- Embedding of JavaScript `s.trim()`. -/
def jsTrim (s : String) : String :=
  ⟨trimList s.data⟩

/-- Embedding of JavaScript `s.toLowerCase()` (ASCII letters, which is all the
repository's alias table needs). -/
def jsToLower (s : String) : String :=
  ⟨s.data.map Char.toLower⟩

/-- The alias table of `fetchWeather`:
`if (searchCity === 'banglore') searchCity = 'bangalore';`. -/
def aliasCorrect (s : String) : String :=
  if s = "banglore" then "bangalore" else s

/-- The query normalisation performed at the top of `fetchWeather`:
`let searchCity = query.trim().toLowerCase();` followed by the alias rewrite. -/
def normalizeQuery (q : String) : String :=
  aliasCorrect (jsToLower (jsTrim q))

/-! ### Lemmas about the string primitives -/

theorem char_toNat_ofNat (n : Nat) (h : n < 55296) : (Char.ofNat n).toNat = n := by
  have hv : n.isValidChar := Or.inl h
  simp [Char.ofNat, hv, Char.ofNatAux, Char.toNat, UInt32.toNat]

theorem toLower_toNat (c : Char) :
    (Char.toLower c).toNat = if 65 ≤ c.toNat ∧ c.toNat ≤ 90 then c.toNat + 32 else c.toNat := by
  unfold Char.toLower
  by_cases h : 65 ≤ c.toNat ∧ c.toNat ≤ 90
  · rw [if_pos ⟨h.1, h.2⟩, if_pos h]
    exact char_toNat_ofNat _ (by omega)
  · rw [if_neg (fun hx => h ⟨hx.1, hx.2⟩), if_neg h]

theorem toLower_eq_self (c : Char) (h : ¬(65 ≤ c.toNat ∧ c.toNat ≤ 90)) :
    Char.toLower c = c := by
  unfold Char.toLower
  exact if_neg (fun hx => h ⟨hx.1, hx.2⟩)

theorem toLower_idem (c : Char) : Char.toLower (Char.toLower c) = Char.toLower c := by
  refine toLower_eq_self _ ?_
  rw [toLower_toNat c]
  split_ifs with h <;> omega

theorem isJsWs_toLower (c : Char) : isJsWs (Char.toLower c) = isJsWs c := by
  by_cases h : 65 ≤ c.toNat ∧ c.toNat ≤ 90
  · have h1 := toLower_toNat c
    rw [if_pos h] at h1
    simp only [isJsWs, h1]
    have e1 : ∀ m : Nat, (m ≥ 97 ∧ m ≤ 122) ∨ (m ≥ 65 ∧ m ≤ 90) →
        (m == 9 || m == 10 || m == 11 || m == 12 || m == 13 ||
          m == 32 || m == 160 || m == 8232 || m == 8233 || m == 65279) = false := by
      intro m hm
      simp only [Bool.or_eq_false_iff, beq_eq_false_iff_ne, ne_eq]
      omega
    rw [e1 _ (Or.inl ⟨by omega, by omega⟩), e1 _ (Or.inr ⟨h.1, h.2⟩)]
  · rw [toLower_eq_self c h]

theorem dropWhile_rdropWhile (p : Char → Bool) (l : List Char)
    (h : List.dropWhile p l = l) :
    List.dropWhile p (List.rdropWhile p l) = List.rdropWhile p l := by
  cases l with
  | nil => simp [List.rdropWhile]
  | cons a t =>
    have hpa : p a = false := by
      have := List.dropWhile_eq_self_iff.mp h (by simp)
      simpa using this
    unfold List.rdropWhile
    rw [List.reverse_cons, List.dropWhile_append]
    split
    · next hemp =>
      simp [List.dropWhile_cons, hpa]
    · next hemp =>
      rw [List.reverse_append]
      simp only [List.reverse_cons, List.reverse_nil, List.nil_append, List.singleton_append]
      rw [List.dropWhile_cons, hpa]
      simp

theorem trimList_idem (l : List Char) : trimList (trimList l) = trimList l := by
  unfold trimList
  rw [dropWhile_rdropWhile isJsWs _ (List.dropWhile_idempotent _ _),
    List.rdropWhile_idempotent]

theorem trimList_map_toLower (l : List Char) :
    trimList (l.map Char.toLower) = (trimList l).map Char.toLower := by
  have hcomp : (isJsWs ∘ Char.toLower) = isJsWs := funext isJsWs_toLower
  unfold trimList List.rdropWhile
  rw [List.dropWhile_map, hcomp, ← List.map_reverse, List.dropWhile_map, hcomp,
    ← List.map_reverse]

theorem dropWhile_ws_append (w x : List Char) (hw : ∀ c ∈ w, isJsWs c = true) :
    List.dropWhile isJsWs (w ++ x) = List.dropWhile isJsWs x := by
  rw [List.dropWhile_append]
  have : List.dropWhile isJsWs w = [] := List.dropWhile_eq_nil_iff.mpr hw
  rw [this]
  simp

theorem rdropWhile_append_ws (x w : List Char) (hw : ∀ c ∈ w, isJsWs c = true) :
    List.rdropWhile isJsWs (x ++ w) = List.rdropWhile isJsWs x := by
  unfold List.rdropWhile
  rw [List.reverse_append, dropWhile_ws_append _ _ (by simpa using hw)]

theorem trimList_pad (w₁ l w₂ : List Char)
    (h₁ : ∀ c ∈ w₁, isJsWs c = true) (h₂ : ∀ c ∈ w₂, isJsWs c = true) :
    trimList (w₁ ++ l ++ w₂) = trimList l := by
  unfold trimList
  rw [List.append_assoc, dropWhile_ws_append _ _ h₁, List.dropWhile_append]
  split
  · next hemp =>
    have h0 : List.dropWhile isJsWs l = [] := by
      simpa using hemp
    rw [List.dropWhile_eq_nil_iff.mpr h₂, h0]
  · next hemp =>
    rw [rdropWhile_append_ws _ _ h₂]

theorem jsTrim_jsToLower_comm (s : String) :
    jsTrim (jsToLower s) = jsToLower (jsTrim s) := by
  unfold jsTrim jsToLower
  rw [String.ext_iff]
  simpa using trimList_map_toLower s.data

theorem jsTrim_idem (s : String) : jsTrim (jsTrim s) = jsTrim s := by
  unfold jsTrim
  rw [String.ext_iff]
  simpa using trimList_idem s.data

theorem jsToLower_idem (s : String) : jsToLower (jsToLower s) = jsToLower s := by
  apply String.ext
  show (s.data.map Char.toLower).map Char.toLower = s.data.map Char.toLower
  rw [List.map_map]
  exact List.map_congr_left fun a _ => toLower_idem a

/-! ## Data model -/

/-- JavaScript truthiness of an optional string value (`undefined` and the
empty string are falsy). -/
def strTruthy : Option String → Bool
  | none => false
  | some s => s != ""

/-- `a || b` on an optional string and a fallback, as JavaScript evaluates it
(an absent or empty left operand yields the right operand). -/
def jsOrStr (a : Option String) (b : String) : String :=
  match a with
  | some s => if s != "" then s else b
  | none => b

/-- The request mode of the spec: `{LIVE, HISTORICAL}`. -/
inductive RequestMode
  | live
  | historical
deriving DecidableEq

/-- The transport route of the spec: `{DIRECT, RELAYED}`. -/
inductive TransportRoute
  | direct
  | relayed
deriving DecidableEq

/-- The `location` object of a successful weatherstack payload (the fields the
orchestration logic reads). -/
structure LocationInfo where
  name : String
deriving DecidableEq

/-- A successful weatherstack response body (`success` is not `false`): the
payload stored into `weatherData`. -/
structure SuccessBody where
  location : LocationInfo
deriving DecidableEq

/-- The `error` object of an explicit weatherstack failure body
(`{error: {code, info, type}}`); each field may be absent. -/
structure ApiError where
  code : Option Int
  info : Option String
  type : Option String
deriving DecidableEq

/-- A parsed response body: either an explicit failure
(`success === false`) or a success payload. -/
inductive RespBody
  | failure (e : ApiError)
  | success (b : SuccessBody)
deriving DecidableEq

/-- The outcome of the `axios.get` call as seen by `fetchWeather`:
resolution with a parsed 2xx body, rejection with an HTTP error status and
message, rejection with `err.code === "ERR_NETWORK"`, or any other
rejection. -/
inductive FetchResult
  | ok (body : RespBody)
  | httpError (status : Nat) (message : String)
  | networkError
  | otherError (message : String)
deriving DecidableEq

/-- The tier-restricted error-code test of `fetchWeather`:
`errorCode === 601 || errorCode === 602 || errorCode === 603 || errorCode === 604`. -/
def isTierCode (c : Option Int) : Bool :=
  c == some 601 || c == some 602 || c == some 603 || c == some 604

/-- The interim notice emitted on a tier error. -/
def premiumRecoveryMsg : String :=
  "PREMIUM_RECOVERY: Historical logs unavailable on basic tier. Syncing live feed..."

/-- Classification of an explicit failure body by `fetchWeather`. -/
inductive Classified
  | recoverable (msg : String)
  | terminal (msg : String)
deriving DecidableEq

/-- The failure-body branch of `fetchWeather`: tier codes yield the
recoverable interim notice, anything else the terminal
`STATION_RESPONSE` message built from `error.info || error.type || '...'`. -/
def classifyFailure (e : ApiError) : Classified :=
  if isTierCode e.code then
    Classified.recoverable premiumRecoveryMsg
  else
    Classified.terminal
      ("STATION_RESPONSE: " ++ jsOrStr e.info (jsOrStr e.type "City not found or API error."))

/-- The fully-formed request descriptor produced for one `axios.get` call:
target URL plus the query parameters object. -/
structure RequestDescriptor where
  url : String
  access_key : String
  query : String
  endpointParam : Option String
  historical_date : Option String
  hourly : Option Int
  interval : Option Int
deriving DecidableEq

/-- The endpoint selection of `fetchWeather`:
`useHistorical && historicalDate ? "historical" : "current"`. -/
def endpointOf (useHistorical : Bool) (historicalDate : String) : String :=
  if useHistorical ∧ historicalDate ≠ "" then "historical" else "current"

/-- The request construction of `fetchWeather`: the hosting scheme picks
either the same-origin relay (passing `endpoint` as an explicit query
parameter) or the native upstream URL (where the endpoint is a path
segment); historical mode attaches `historical_date`, `hourly: 1`,
`interval: 3`. -/
def buildRequest (secure useHistorical : Bool) (historicalDate apiKey searchCity : String) :
    RequestDescriptor :=
  let endpoint := endpointOf useHistorical historicalDate
  { url := if secure then "/api/weather" else "http://api.weatherstack.com/" ++ endpoint
  , access_key := jsTrim apiKey
  , query := searchCity
  , endpointParam := if secure then some endpoint else none
  , historical_date := if useHistorical ∧ historicalDate ≠ "" then some historicalDate else none
  , hourly := if useHistorical ∧ historicalDate ≠ "" then some 1 else none
  , interval := if useHistorical ∧ historicalDate ≠ "" then some 3 else none }

/-- The route actually taken by a request descriptor: the same-origin
`/api/weather` target is the relay, anything else is the upstream service
itself. -/
def routeOf (r : RequestDescriptor) : TransportRoute :=
  if r.url = "/api/weather" then TransportRoute.relayed else TransportRoute.direct

/-! ## The `fetchWeather` pipeline -/

/-- The values of the component captured by the `useCallback` closure of
`fetchWeather` (its dependency list `[apiKey, useHistorical, historicalDate,
recentSearches]`). A scheduled retry re-invokes the closure that scheduled
it, so it reads these captured values, not the current component state. -/
structure Env where
  apiKey : String
  useHistorical : Bool
  historicalDate : String
  recentSearches : List String
deriving DecidableEq

/-- The component state owned by the `App` component (the parts written by
`fetchWeather` through the `setXxx` setters). -/
structure AppState where
  weatherData : Option SuccessBody
  error : Option String
  loading : Bool
  lastUpdated : Option String
  useHistorical : Bool
  historicalDate : String
  apiKey : String
  recentSearches : List String
deriving DecidableEq

/-- The closure environment a freshly rendered component hands to a
user-initiated `fetchWeather` call. -/
def mkEnv (st : AppState) : Env :=
  ⟨st.apiKey, st.useHistorical, st.historicalDate, st.recentSearches⟩

/-- A delayed re-invocation created by
`setTimeout(() => fetchWeather(searchCity), 2000)`: the query argument, the
delay in milliseconds, and the closure environment the callback will run
in. -/
structure Scheduled where
  query : String
  delayMs : Nat
  env : Env
deriving DecidableEq

/-- The observable result of one settled `fetchWeather` invocation: the
component state after all setters ran, the timers scheduled by the call, and
the request it dispatched (`none` when the call returned before dispatch). -/
structure StepOut where
  state : AppState
  scheduled : List Scheduled
  request : Option RequestDescriptor
deriving DecidableEq

/-- The recent-searches update on success:
`[name, ...recentSearches.filter(c => c !== name)].slice(0, 5)`. -/
def updateRecent (name : String) (recent : List String) : List String :=
  (name :: recent.filter (fun c => c != name)).take 5

/-- One settled invocation of `fetchWeather` (`src/App.jsx`): `env` is the
closure environment the invocation runs in, `st` the component state when it
settles, `secure` whether `window.location.protocol === "https:"`, `now` the
formatted current time, `query` the raw argument and `result` the outcome of
the dispatched `axios.get`. -/
def fetchWeather (env : Env) (st : AppState) (secure : Bool) (now : String)
    (query : String) (result : FetchResult) : StepOut :=
  if query = "" then ⟨st, [], none⟩
  else
    let st1 := { st with loading := true, error := none }
    let searchCity := normalizeQuery query
    let req := buildRequest secure env.useHistorical env.historicalDate env.apiKey searchCity
    match result with
    | FetchResult.ok (RespBody.failure e) =>
      match classifyFailure e with
      | Classified.recoverable m =>
        ⟨{ st1 with
            error := some m
            useHistorical := false
            weatherData := none
            loading := false },
          [⟨searchCity, 2000, env⟩], some req⟩
      | Classified.terminal m =>
        ⟨{ st1 with error := some m, weatherData := none, loading := false }, [], some req⟩
    | FetchResult.ok (RespBody.success b) =>
      ⟨{ st1 with
          weatherData := some b
          lastUpdated := some now
          recentSearches := updateRecent b.location.name env.recentSearches
          loading := false },
        [], some req⟩
    | FetchResult.httpError status msg =>
      ⟨{ st1 with
          error := some (if status = 401 then "ACCESS_DENIED: Invalid authentication key."
            else "INTERFACE_ERROR: " ++ msg)
          weatherData := none
          loading := false },
        [], some req⟩
    | FetchResult.networkError =>
      ⟨{ st1 with
          error := some (if secure then
              "PROXY_UNAVAILABLE: The Vercel API proxy failed to initialize. Verify your deployment build."
            else
              "PROTOCOL_ERROR: WeatherStack requires HTTP entry. Use the Vercel branch for HTTPS access.")
          weatherData := none
          loading := false },
        [], some req⟩
    | FetchResult.otherError msg =>
      ⟨{ st1 with
          error := some ("INTERFACE_ERROR: " ++ msg)
          weatherData := none
          loading := false },
        [], some req⟩

/-! ## The relay (`api/weather.js`) -/

/-- The query parameters of an incoming relay request:
`const { endpoint = 'current', access_key, query, ...params } = req.query;`. -/
structure RelayReq where
  endpoint : Option String
  access_key : Option String
  query : Option String
  extraParams : List (String × String)
deriving DecidableEq

/-- The outcome of the relay's own `axios.get` to the upstream service: an
HTTP response (any status, with its parsed body), or no response at all. -/
inductive UpstreamOutcome
  | response (status : Nat) (body : RespBody)
  | netFailure (message : String)
deriving DecidableEq

/-- The response the relay sends back: status, JSON body, and whether the
permissive cross-origin headers were set on it. -/
structure RelayRes where
  status : Nat
  body : RespBody
  corsHeaders : Bool
deriving DecidableEq

/-- The upstream call the relay issues when validation passes. -/
structure ForwardedCall where
  endpoint : String
  access_key : String
  query : String
  extraParams : List (String × String)
deriving DecidableEq

/-- The 400 validation-failure body of the relay. -/
def missingParamsBody : RespBody :=
  RespBody.failure ⟨none, some "Missing access_key or query parameters.", none⟩

/-- The upstream call built from a validated relay request (destructuring
default: an absent `endpoint` becomes `"current"`). -/
def forwardOf (req : RelayReq) : ForwardedCall :=
  ⟨req.endpoint.getD "current", req.access_key.getD "", req.query.getD "", req.extraParams⟩

/-- The relay handler of `api/weather.js`: validate `access_key` and `query`
(JavaScript truthiness), else forward and answer. `axios.get` resolves only
for 2xx upstream statuses; any other status, like a network failure, lands in
the `catch` block, which answers 500 with a `Proxy Error` body. The CORS
headers are set only on the success path. The handler returns its response
and the upstream call it made, if any. -/
def weatherHandler (req : RelayReq) (up : UpstreamOutcome) : RelayRes × Option ForwardedCall :=
  if strTruthy req.access_key ∧ strTruthy req.query then
    match up with
    | UpstreamOutcome.response s b =>
      if 200 ≤ s ∧ s < 300 then
        (⟨200, b, true⟩, some (forwardOf req))
      else
        (⟨500,
          RespBody.failure
            ⟨none, some ("Proxy Error: Request failed with status code " ++ toString s), none⟩,
          false⟩,
          some (forwardOf req))
    | UpstreamOutcome.netFailure m =>
      (⟨500, RespBody.failure ⟨none, some ("Proxy Error: " ++ m), none⟩, false⟩,
        some (forwardOf req))
  else
    (⟨400, missingParamsBody, false⟩, none)

/-! ## Derived observations and concrete fixtures -/

/-- Whether an `axios.get` outcome is a success payload. -/
def isSuccessResult : FetchResult → Bool
  | FetchResult.ok (RespBody.success _) => true
  | _ => false

/-- Whether an `axios.get` outcome is classified terminally by `fetchWeather`
(everything except a success payload and a tier-coded failure body). -/
def isTerminalOutcome : FetchResult → Bool
  | FetchResult.ok (RespBody.success _) => false
  | FetchResult.ok (RespBody.failure e) => !(isTierCode e.code)
  | _ => true

/-- A live-mode component state holding a previously fetched report. -/
def st0 : AppState :=
  ⟨some ⟨⟨"Pune"⟩⟩, none, false, some "09:55", false, "", "key1", ["Pune"]⟩

/-- The closure environment of the render that produced `st0`. -/
def env0 : Env := ⟨"key1", false, "", ["Pune"]⟩

/-- A historical-mode component state (archive toggle on, date picked). -/
def stH : AppState := ⟨none, none, false, none, true, "2024-01-10", "key1", []⟩

/-- The closure environment of the render that produced `stH`. -/
def envH : Env := ⟨"key1", true, "2024-01-10", []⟩

/-- An explicit tier-restricted failure body (`error.code === 603`). -/
def tierResp : FetchResult :=
  FetchResult.ok (RespBody.failure ⟨some 603, some "hist denied", none⟩)

/-! ## Claims -/

/-- Claim C1: for every request issued by the pipeline, the transport route is
determined solely by the hosting context's scheme — a secure hosting scheme
always targets the same-origin relay (RELAYED, with the desired mode passed
as an explicit `endpoint` parameter), a non-secure one always targets the
upstream service's native HTTP endpoint directly (DIRECT), regardless of the
request mode encoded in `useHistorical`/`historicalDate`. -/
theorem transport_route_by_scheme (useHist : Bool) (histDate apiKey searchCity : String) :
    routeOf (buildRequest true useHist histDate apiKey searchCity) = TransportRoute.relayed ∧
    routeOf (buildRequest false useHist histDate apiKey searchCity) = TransportRoute.direct ∧
    (buildRequest true useHist histDate apiKey searchCity).url = "/api/weather" ∧
    (buildRequest false useHist histDate apiKey searchCity).url =
      "http://api.weatherstack.com/" ++ endpointOf useHist histDate ∧
    (buildRequest true useHist histDate apiKey searchCity).endpointParam =
      some (endpointOf useHist histDate) := by
  have hep : endpointOf useHist histDate = "historical" ∨ endpointOf useHist histDate = "current" := by
    unfold endpointOf
    split
    · exact Or.inl rfl
    · exact Or.inr rfl
  refine ⟨?_, ?_, rfl, rfl, rfl⟩
  · unfold routeOf
    have hurl : (buildRequest true useHist histDate apiKey searchCity).url = "/api/weather" := rfl
    rw [hurl]
    decide
  · unfold routeOf
    have hurl : (buildRequest false useHist histDate apiKey searchCity).url =
        "http://api.weatherstack.com/" ++ endpointOf useHist histDate := rfl
    rw [hurl]
    rcases hep with h | h <;> rw [h] <;> decide

/-- Claim C2: evaluation of the pipeline at the failing input. The originating
historical call whose body carries tier code 603 schedules exactly one retry
after 2000 ms with the same normalized query, and `setUseHistorical(false)`
does flip the component state to live mode — but the scheduled callback
re-invokes the closure captured before that flip, so the retry still issues a
HISTORICAL request, and when its response carries a tier code again it
schedules a second automatic retry from the same originating call. -/
theorem retry_stale_closure_eval :
    (fetchWeather envH stH false "10:00" "delhi" tierResp).scheduled =
      [⟨"delhi", 2000, envH⟩] ∧
    (fetchWeather envH stH false "10:00" "delhi" tierResp).state.useHistorical = false ∧
    (fetchWeather envH ((fetchWeather envH stH false "10:00" "delhi" tierResp).state) false
        "10:01" "delhi" tierResp).request =
      some (buildRequest false true "2024-01-10" "key1" "delhi") ∧
    (buildRequest false true "2024-01-10" "key1" "delhi").url =
      "http://api.weatherstack.com/historical" ∧
    (fetchWeather envH ((fetchWeather envH stH false "10:00" "delhi" tierResp).state) false
        "10:01" "delhi" tierResp).scheduled = [⟨"delhi", 2000, envH⟩] := by
  decide

/-- Claim C3: a parsed failure body is classified RecoverableError exactly
when its error code lies in the tier-restricted set {601, 602, 603, 604}; any
other explicit failure is TerminalError, whose message is taken from the
body's `error.info`, else `error.type`, else the generic fallback. -/
theorem classifier_tier_exactness (e : ApiError) :
    (classifyFailure e = Classified.recoverable premiumRecoveryMsg ↔
      e.code ∈ [some (601 : Int), some 602, some 603, some 604]) ∧
    (e.code ∉ [some (601 : Int), some 602, some 603, some 604] →
      classifyFailure e =
        Classified.terminal
          ("STATION_RESPONSE: " ++
            jsOrStr e.info (jsOrStr e.type "City not found or API error."))) := by
  have htier : isTierCode e.code = true ↔
      e.code ∈ [some (601 : Int), some 602, some 603, some 604] := by
    simp only [isTierCode, Bool.or_eq_true, beq_iff_eq, List.mem_cons,
      List.not_mem_nil, or_false]
    tauto
  by_cases h : isTierCode e.code = true
  · constructor
    · rw [classifyFailure, if_pos h]
      simp only [true_iff]
      exact htier.mp h
    · intro hmem
      exact absurd (htier.mp h) hmem
  · constructor
    · rw [classifyFailure, if_neg h]
      constructor
      · intro hx
        exact absurd hx (by simp)
      · intro hmem
        exact absurd (htier.mpr hmem) h
    · intro _
      rw [classifyFailure, if_neg h]

/-- Concrete application of the classifier theorem: code 615 is outside the
tier set and, with `info` and `type` absent, yields the generic terminal
fallback message. -/
theorem classifier_tier_exactness_witness :
    classifyFailure ⟨some 615, none, none⟩ =
      Classified.terminal "STATION_RESPONSE: City not found or API error." := by
  have h := (classifier_tier_exactness ⟨some 615, none, none⟩).2 (by decide)
  exact h.trans (by decide)

/-- Claim C5: the recency cache update prepends the resolved name after
removing any prior occurrence and truncates to 5, so the cache never exceeds
5 entries and stays duplicate-free; for [A,B,C], re-adding B yields [B,A,C];
and a settled invocation mutates the cache only on success. -/
theorem recency_cache_invariants (name : String) (recent : List String)
    (env : Env) (st : AppState) (secure : Bool) (now query : String) (r : FetchResult)
    (b : SuccessBody) (hq : query ≠ "") (hnodup : recent.Nodup)
    (hns : isSuccessResult r = false) :
    (updateRecent name recent).length ≤ 5 ∧
    (updateRecent name recent).Nodup ∧
    updateRecent "B" ["A", "B", "C"] = ["B", "A", "C"] ∧
    (fetchWeather env st secure now query r).state.recentSearches = st.recentSearches ∧
    (fetchWeather env st secure now query
        (FetchResult.ok (RespBody.success b))).state.recentSearches =
      updateRecent b.location.name env.recentSearches := by
  refine ⟨List.length_take_le 5 _, ?_, by decide, ?_, ?_⟩
  · have hcons : (name :: recent.filter (fun c => c != name)).Nodup := by
      rw [List.nodup_cons]
      refine ⟨fun hmem => ?_, hnodup.filter _⟩
      rcases List.mem_filter.mp hmem with ⟨-, hpf⟩
      simp at hpf
    exact List.Nodup.sublist (List.take_sublist 5 _) hcons
  · cases r with
    | ok body =>
      cases body with
      | failure e =>
        cases hcf : classifyFailure e <;> simp [fetchWeather, hq, hcf]
      | success b2 => simp [isSuccessResult] at hns
    | httpError s m => simp [fetchWeather, hq]
    | networkError => simp [fetchWeather, hq]
    | otherError m => simp [fetchWeather, hq]
  · simp [fetchWeather, hq]

/-- Concrete application of the cache theorem: the [A,B,C] scenario, a 401
failure leaving the cache untouched, and a success prepending the resolved
name. -/
theorem recency_cache_invariants_witness :
    (updateRecent "B" ["A", "B", "C"]).length ≤ 5 ∧
    (updateRecent "B" ["A", "B", "C"]).Nodup ∧
    updateRecent "B" ["A", "B", "C"] = ["B", "A", "C"] ∧
    (fetchWeather env0 st0 false "10:00" "delhi"
        (FetchResult.httpError 401 "Request failed with status code 401")).state.recentSearches =
      st0.recentSearches ∧
    (fetchWeather env0 st0 false "10:00" "delhi"
        (FetchResult.ok (RespBody.success ⟨⟨"Delhi"⟩⟩))).state.recentSearches =
      updateRecent "Delhi" env0.recentSearches := by
  have h := recency_cache_invariants "B" ["A", "B", "C"] env0 st0 false "10:00" "delhi"
    (FetchResult.httpError 401 "Request failed with status code 401") ⟨⟨"Delhi"⟩⟩
    (by decide) (by decide) (by decide)
  exact ⟨h.1, h.2.1, h.2.2.1, h.2.2.2.1, h.2.2.2.2⟩

/-- Claim C6 counterexample: the raw query consisting of a single space has an
empty trimmed form, yet the invocation does not fail before dispatch — the
guard `if (!query) return` only rejects the empty raw string, so a network
call is issued carrying the empty normalized query. -/
theorem whitespace_query_dispatched :
    jsTrim " " = "" ∧
    (fetchWeather env0 st0 false "10:00" " " FetchResult.networkError).request =
      some (buildRequest false env0.useHistorical env0.historicalDate env0.apiKey "") := by
  decide

/-- Claim C6 amended: the pipeline fails before dispatch (no network call, no
state change, nothing scheduled) exactly when the raw query string is empty;
a whitespace-only raw query passes the guard and is dispatched. -/
theorem empty_guard_exact (env : Env) (st : AppState) (secure : Bool) (now query : String)
    (r : FetchResult) :
    ((fetchWeather env st secure now query r).request = none ↔ query = "") ∧
    (query = "" → fetchWeather env st secure now query r = ⟨st, [], none⟩) := by
  by_cases hq : query = ""
  · subst hq
    simp [fetchWeather]
  · refine ⟨⟨fun hn => ?_, fun he => absurd he hq⟩, fun he => absurd he hq⟩
    cases r with
    | ok body =>
      cases body with
      | failure e =>
        cases hcf : classifyFailure e <;> simp [fetchWeather, hq, hcf] at hn
      | success b => simp [fetchWeather, hq] at hn
    | httpError s m => simp [fetchWeather, hq] at hn
    | networkError => simp [fetchWeather, hq] at hn
    | otherError m => simp [fetchWeather, hq] at hn

/-- Concrete application of the guard theorem at the empty raw query. -/
theorem empty_guard_exact_witness :
    (fetchWeather env0 st0 false "10:00" "" FetchResult.networkError).request = none ∧
    fetchWeather env0 st0 false "10:00" "" FetchResult.networkError = ⟨st0, [], none⟩ := by
  have h := empty_guard_exact env0 st0 false "10:00" "" FetchResult.networkError
  exact ⟨h.1.mpr rfl, h.2 rfl⟩

/-- Claim C7: every invocation whose outcome is classified terminally (for
example an HTTP 401 authentication failure) surfaces a terminal error
message, schedules no automatic retry, leaves the recency cache unchanged,
and clears the currently held report. -/
theorem terminal_error_frame (env : Env) (st : AppState) (secure : Bool)
    (now query : String) (r : FetchResult) (hq : query ≠ "")
    (ht : isTerminalOutcome r = true) :
    (fetchWeather env st secure now query r).state.error.isSome = true ∧
    (fetchWeather env st secure now query r).state.weatherData = none ∧
    (fetchWeather env st secure now query r).state.recentSearches = st.recentSearches ∧
    (fetchWeather env st secure now query r).scheduled = [] := by
  cases r with
  | ok body =>
    cases body with
    | failure e =>
      have htier : isTierCode e.code = false := by
        simpa [isTerminalOutcome] using ht
      simp [fetchWeather, hq, classifyFailure, htier]
    | success b => simp [isTerminalOutcome] at ht
  | httpError s m => simp [fetchWeather, hq]
  | networkError => simp [fetchWeather, hq]
  | otherError m => simp [fetchWeather, hq]

/-- Concrete application of the terminal-outcome theorem at an HTTP 401
rejection, starting from a state that holds a previous report. -/
theorem terminal_error_frame_witness :
    (fetchWeather env0 st0 false "10:00" "delhi"
        (FetchResult.httpError 401 "Request failed with status code 401")).state.error.isSome = true ∧
    (fetchWeather env0 st0 false "10:00" "delhi"
        (FetchResult.httpError 401 "Request failed with status code 401")).state.weatherData = none ∧
    (fetchWeather env0 st0 false "10:00" "delhi"
        (FetchResult.httpError 401 "Request failed with status code 401")).state.recentSearches =
      st0.recentSearches ∧
    (fetchWeather env0 st0 false "10:00" "delhi"
        (FetchResult.httpError 401 "Request failed with status code 401")).scheduled = [] :=
  terminal_error_frame env0 st0 false "10:00" "delhi"
    (FetchResult.httpError 401 "Request failed with status code 401") (by decide) (by decide)

/-- Claim C9: after every settled invocation exactly one of the held report
and the error message is non-null — a success stores the report and leaves
the error cleared by the dispatch-time reset, and every failure (terminal or
recoverable) sets an error and nulls the report. -/
theorem report_error_exclusive (env : Env) (st : AppState) (secure : Bool)
    (now query : String) (r : FetchResult) (hq : query ≠ "") :
    ((fetchWeather env st secure now query r).state.weatherData.isSome = true ∧
      (fetchWeather env st secure now query r).state.error = none) ∨
    ((fetchWeather env st secure now query r).state.weatherData = none ∧
      (fetchWeather env st secure now query r).state.error.isSome = true) := by
  cases r with
  | ok body =>
    cases body with
    | failure e =>
      cases hcf : classifyFailure e with
      | recoverable m => exact Or.inr (by simp [fetchWeather, hq, hcf])
      | terminal m => exact Or.inr (by simp [fetchWeather, hq, hcf])
    | success b => exact Or.inl (by simp [fetchWeather, hq])
  | httpError s m => exact Or.inr (by simp [fetchWeather, hq])
  | networkError => exact Or.inr (by simp [fetchWeather, hq])
  | otherError m => exact Or.inr (by simp [fetchWeather, hq])

/-- Concrete application of the exclusivity theorem at a successful
response. -/
theorem report_error_exclusive_witness :
    ((fetchWeather env0 st0 false "10:00" "delhi"
        (FetchResult.ok (RespBody.success ⟨⟨"Delhi"⟩⟩))).state.weatherData.isSome = true ∧
      (fetchWeather env0 st0 false "10:00" "delhi"
        (FetchResult.ok (RespBody.success ⟨⟨"Delhi"⟩⟩))).state.error = none) ∨
    ((fetchWeather env0 st0 false "10:00" "delhi"
        (FetchResult.ok (RespBody.success ⟨⟨"Delhi"⟩⟩))).state.weatherData = none ∧
      (fetchWeather env0 st0 false "10:00" "delhi"
        (FetchResult.ok (RespBody.success ⟨⟨"Delhi"⟩⟩))).state.error.isSome = true) :=
  report_error_exclusive env0 st0 false "10:00" "delhi"
    (FetchResult.ok (RespBody.success ⟨⟨"Delhi"⟩⟩)) (by decide)

/-! ### Normalizer helper lemmas -/

theorem jsLT_fix (q : String) :
    jsToLower (jsTrim (jsToLower (jsTrim q))) = jsToLower (jsTrim q) := by
  rw [jsTrim_jsToLower_comm, jsTrim_idem, jsToLower_idem]

theorem aliasCorrect_ne_iff (s : String) : aliasCorrect s ≠ s ↔ s = "banglore" := by
  by_cases h : s = "banglore"
  · subst h
    constructor
    · intro _
      rfl
    · intro _
      show aliasCorrect "banglore" ≠ "banglore"
      decide
  · simp [aliasCorrect, h]

theorem normalizeQuery_idem (q : String) :
    normalizeQuery (normalizeQuery q) = normalizeQuery q := by
  by_cases hb : jsToLower (jsTrim q) = "banglore"
  · have h1 : normalizeQuery q = "bangalore" := by
      unfold normalizeQuery aliasCorrect
      rw [hb, if_pos rfl]
    rw [h1]
    decide
  · have h1 : normalizeQuery q = jsToLower (jsTrim q) := by
      unfold normalizeQuery aliasCorrect
      rw [if_neg hb]
    rw [h1]
    unfold normalizeQuery aliasCorrect
    rw [jsLT_fix, if_neg hb]

theorem normalizeQuery_pad (ws₁ q ws₂ : String)
    (h₁ : ∀ c ∈ ws₁.data, isJsWs c = true) (h₂ : ∀ c ∈ ws₂.data, isJsWs c = true) :
    normalizeQuery (ws₁ ++ q ++ ws₂) = normalizeQuery q := by
  unfold normalizeQuery
  have htrim : jsTrim (ws₁ ++ q ++ ws₂) = jsTrim q := by
    apply String.ext
    show trimList (ws₁ ++ q ++ ws₂).data = trimList q.data
    rw [String.data_append, String.data_append]
    exact trimList_pad _ _ _ h₁ h₂
  rw [htrim]

theorem normalizeQuery_lower_congr (q q' : String) (h : jsToLower q' = jsToLower q) :
    normalizeQuery q' = normalizeQuery q := by
  unfold normalizeQuery
  rw [← jsTrim_jsToLower_comm, h, jsTrim_jsToLower_comm]

/-- Claim C8: for every raw input, normalization is the alias-correction of
the lowercased trimmed input; the alias table alters exactly the key
"banglore" (to "bangalore") and nothing else; and normalization is idempotent
and insensitive to surrounding whitespace and to letter case. -/
theorem normalize_query_contract (q ws₁ ws₂ q' : String)
    (h₁ : ∀ c ∈ ws₁.data, isJsWs c = true) (h₂ : ∀ c ∈ ws₂.data, isJsWs c = true)
    (h₃ : jsToLower q' = jsToLower q) :
    normalizeQuery q = aliasCorrect (jsToLower (jsTrim q)) ∧
    (∀ s : String, aliasCorrect s ≠ s ↔ s = "banglore") ∧
    normalizeQuery (normalizeQuery q) = normalizeQuery q ∧
    normalizeQuery (ws₁ ++ q ++ ws₂) = normalizeQuery q ∧
    normalizeQuery q' = normalizeQuery q :=
  ⟨rfl, aliasCorrect_ne_iff, normalizeQuery_idem q,
    normalizeQuery_pad ws₁ q ws₂ h₁ h₂, normalizeQuery_lower_congr q q' h₃⟩

/-- Concrete application of the normalizer contract: a padded, mixed-case
misspelling, its re-normalization, its whitespace padding, and a different
casing all map to "bangalore". -/
theorem normalize_query_contract_witness :
    normalizeQuery " BangLore " = "bangalore" ∧
    aliasCorrect "banglore" ≠ "banglore" ∧
    normalizeQuery (normalizeQuery " BangLore ") = normalizeQuery " BangLore " ∧
    normalizeQuery ("\t" ++ " BangLore " ++ "  ") = normalizeQuery " BangLore " ∧
    normalizeQuery " bAngLoRe " = normalizeQuery " BangLore " := by
  have h := normalize_query_contract " BangLore " "\t" "  " " bAngLoRe "
    (by decide) (by decide) (by decide)
  exact ⟨by decide, (h.2.1 "banglore").mpr rfl, h.2.2.1, h.2.2.2.1, h.2.2.2.2⟩

/-! ### Relay fixtures and claims -/

/-- A relay request carrying credential and query but no mode selector. -/
def relayReq0 : RelayReq := ⟨none, some "key1", some "delhi", []⟩

/-- An explicit upstream failure body delivered with a non-2xx status. -/
def upBody404 : RespBody := RespBody.failure ⟨some 615, some "Request Failed", none⟩

/-- A successful upstream body. -/
def upBodyOk : RespBody := RespBody.success ⟨⟨"Delhi"⟩⟩

/-- Claim C4 counterexample: for a validated request whose upstream responds
with status 404, the relay answers 500 with a synthesized proxy-error body —
neither the upstream status nor the upstream body is mirrored. -/
theorem relay_status_not_mirrored :
    (weatherHandler relayReq0 (UpstreamOutcome.response 404 upBody404)).1.status = 500 ∧
    (weatherHandler relayReq0 (UpstreamOutcome.response 404 upBody404)).1.status ≠ 404 ∧
    (weatherHandler relayReq0 (UpstreamOutcome.response 404 upBody404)).1.body ≠ upBody404 := by
  decide

/-- Claim C4 amended: a relay request missing credential or query is answered
400 with no upstream call; a validated request is forwarded to the endpoint
matching the requested mode; a 2xx upstream response is returned with its
body unmodified under a fixed 200 status plus the permissive cross-origin
headers; any non-2xx upstream status or network failure is answered 500 with
a proxy-error body and no cross-origin headers. -/
theorem relay_forwarding (req : RelayReq) (s : Nat) (b : RespBody) (m : String)
    (hak : strTruthy req.access_key = true) (hq : strTruthy req.query = true) :
    (weatherHandler req (UpstreamOutcome.response s b)).2 = some (forwardOf req) ∧
    (forwardOf req).endpoint = req.endpoint.getD "current" ∧
    (200 ≤ s → s < 300 →
      (weatherHandler req (UpstreamOutcome.response s b)).1 =
        ⟨200, b, true⟩) ∧
    (¬(200 ≤ s ∧ s < 300) →
      (weatherHandler req (UpstreamOutcome.response s b)).1 =
        ⟨500,
          RespBody.failure
            ⟨none, some ("Proxy Error: Request failed with status code " ++ toString s), none⟩,
          false⟩) ∧
    (weatherHandler req (UpstreamOutcome.netFailure m)).1 =
      ⟨500, RespBody.failure ⟨none, some ("Proxy Error: " ++ m), none⟩, false⟩ ∧
    (∀ (r' : RelayReq) (u' : UpstreamOutcome),
      ¬(strTruthy r'.access_key = true ∧ strTruthy r'.query = true) →
        weatherHandler r' u' = (⟨400, missingParamsBody, false⟩, none)) := by
  have hcond : (strTruthy req.access_key = true ∧ strTruthy req.query = true) := ⟨hak, hq⟩
  refine ⟨?_, rfl, ?_, ?_, ?_, ?_⟩
  · unfold weatherHandler
    rw [if_pos hcond]
    by_cases h2 : 200 ≤ s ∧ s < 300
    · simp [h2]
    · simp [h2]
  · intro hle hlt
    unfold weatherHandler
    rw [if_pos hcond]
    simp [hle, hlt]
  · intro h2
    unfold weatherHandler
    rw [if_pos hcond]
    simp [h2]
  · unfold weatherHandler
    rw [if_pos hcond]
  · intro r' u' hmiss
    unfold weatherHandler
    rw [if_neg hmiss]

/-- Concrete application of the relay theorem: a validated request with a 200
upstream response is mirrored in body under a 200 status with the headers
set, and is forwarded upstream. -/
theorem relay_forwarding_witness :
    (weatherHandler relayReq0 (UpstreamOutcome.response 200 upBodyOk)).1 =
      ⟨200, upBodyOk, true⟩ ∧
    (weatherHandler relayReq0 (UpstreamOutcome.response 200 upBodyOk)).2 =
      some (forwardOf relayReq0) := by
  have h := relay_forwarding relayReq0 200 upBodyOk "socket hang up" (by decide) (by decide)
  exact ⟨h.2.2.1 (by decide) (by decide), h.1⟩

/-- Claim C10: a relay request that omits the mode selector entirely but
carries credential and query does not fail — the mode defaults to the live
`current` endpoint and the request is forwarded upstream. -/
theorem relay_default_current (ak q : String) (extra : List (String × String))
    (u : UpstreamOutcome) (hak : ak ≠ "") (hq : q ≠ "") :
    (weatherHandler ⟨none, some ak, some q, extra⟩ u).2 =
      some ⟨"current", ak, q, extra⟩ ∧
    (weatherHandler ⟨none, some ak, some q, extra⟩ u).1.status ≠ 400 := by
  have hcond : (strTruthy (⟨none, some ak, some q, extra⟩ : RelayReq).access_key = true ∧
      strTruthy (⟨none, some ak, some q, extra⟩ : RelayReq).query = true) := by
    constructor
    · simpa [strTruthy, bne_iff_ne] using hak
    · simpa [strTruthy, bne_iff_ne] using hq
  have hfw : forwardOf ⟨none, some ak, some q, extra⟩ =
      (⟨"current", ak, q, extra⟩ : ForwardedCall) := rfl
  constructor
  · unfold weatherHandler
    rw [if_pos hcond]
    cases u with
    | response s b =>
      by_cases h2 : 200 ≤ s ∧ s < 300
      · simp [h2, hfw]
      · simp [h2, hfw]
    | netFailure m => simp [hfw]
  · unfold weatherHandler
    rw [if_pos hcond]
    cases u with
    | response s b =>
      by_cases h2 : 200 ≤ s ∧ s < 300
      · simp [h2]
      · simp [h2]
    | netFailure m => simp

/-- Concrete application of the default-mode theorem. -/
theorem relay_default_current_witness :
    (weatherHandler ⟨none, some "key1", some "delhi", []⟩
        (UpstreamOutcome.response 200 upBodyOk)).2 =
      some ⟨"current", "key1", "delhi", []⟩ ∧
    (weatherHandler ⟨none, some "key1", some "delhi", []⟩
        (UpstreamOutcome.response 200 upBodyOk)).1.status ≠ 400 :=
  relay_default_current "key1" "delhi" [] (UpstreamOutcome.response 200 upBodyOk)
    (by decide) (by decide)
